import Mathlib

/-!
Verification of the configuration schema described by
src/app/types/configuration/build.d.ts of disfated/quasar.

The source file is a pure type-declaration surface: two interfaces
(QuasarStaticBuildConfiguration and QuasarDynamicBuildConfiguration) whose
fields describe the recognized build-configuration options, and an ambient
module declaration exporting QuasarBuildConfiguration as the Partial of
their intersection.  The schema table below is translated field-by-field
from that source.  The Validator and Merger components are not present
under src/ (only the type declarations they would enforce are), so they
are modelled from the specification, as marked in their doc comments.
-/

namespace QuasarConf

mutual

/-- Runtime JavaScript values that may appear in a raw configuration
object: booleans, strings, numbers, regular expressions (by their
pattern), arrays, plain objects (association lists of fields), and
callback functions (identified by a token standing for the function
identity). -/
inductive Value where
  | vBool (b : Bool)
  | vStr (s : String)
  | vNum (n : Int)
  | vRegexp (pat : String)
  | vList (xs : Values)
  | vObj (fields : Fields)
  | vCallback (tok : Nat)
deriving Repr, DecidableEq

/-- List of runtime values (a JavaScript array). -/
inductive Values where
  | nil
  | cons (v : Value) (vs : Values)
deriving Repr, DecidableEq

/-- Fields of a runtime object: an association list of named values. -/
inductive Fields where
  | nil
  | cons (k : String) (v : Value) (fs : Fields)
deriving Repr, DecidableEq

end

/-- Coarse runtime tag of a value, reported to the user as the actual
kind inside a TypeMismatch field error. -/
inductive ValueTag where
  | tBool | tStr | tNum | tRegexp | tList | tObj | tCallback
deriving Repr, DecidableEq

/-- Runtime tag of a value. -/
def tagOf : Value → ValueTag
  | .vBool _ => .tBool
  | .vStr _ => .tStr
  | .vNum _ => .tNum
  | .vRegexp _ => .tRegexp
  | .vList _ => .tList
  | .vObj _ => .tObj
  | .vCallback _ => .tCallback

/-- Field kinds of a hook-payload object field; the only inline payload
object in the source (onPublish, build.d.ts line 75) has string fields. -/
inductive PFieldKind where
  | pStr
deriving Repr, DecidableEq

/-- Payload shape a callback-kind option receives, from the source:
the four dev/build hooks take the pipeline-defined QuasarHookParams
object, extendWebpack takes the generated webpack configuration,
chainWebpack takes a webpack-chain object, and onPublish takes the
inline object written out field-by-field in the declaration. -/
inductive PayloadTy where
  | hookParams
  | webpackConfig
  | webpackChain
  | objShape (fields : List (String × PFieldKind))
deriving Repr, DecidableEq

/-- Value kinds an option may declare, translated from the TypeScript
types of the fields of the two interfaces in build.d.ts. -/
inductive Kind where
  /-- boolean -/
  | kBool
  /-- string -/
  | kStr
  /-- enumerated string literal union, such as "hash" | "history" -/
  | kEnum (choices : List String)
  /-- RegExp[] -/
  | kRegexpList
  /-- Record of string to string-or-string-list -/
  | kRecordStrOrStrList
  /-- Record of string to string -/
  | kRecordStr
  /-- callback with the given payload shape -/
  | kCallback (payload : PayloadTy)
  /-- pass-through options object for a third-party tool -/
  | kObj
  /-- boolean or pass-through options object (the analyze field) -/
  | kBoolOrObj
  /-- webpack devtool: a strategy string or the literal false -/
  | kDevtool
deriving Repr, DecidableEq

/-- Whether every element of an array is a regular expression. -/
def allRegexps : Values → Bool
  | .nil => true
  | .cons (.vRegexp _) vs => allRegexps vs
  | .cons _ _ => false

/-- Whether every element of an array is a string. -/
def allStrs : Values → Bool
  | .nil => true
  | .cons (.vStr _) vs => allStrs vs
  | .cons _ _ => false

/-- Whether every field of an object holds a string. -/
def allStrFields : Fields → Bool
  | .nil => true
  | .cons _ (.vStr _) fs => allStrFields fs
  | .cons _ _ _ => false

/-- Whether every field of an object holds a string or a string array. -/
def allStrOrStrListFields : Fields → Bool
  | .nil => true
  | .cons _ (.vStr _) fs => allStrOrStrListFields fs
  | .cons _ (.vList ys) fs => allStrs ys && allStrOrStrListFields fs
  | .cons _ _ _ => false

/-- Whether a runtime value conforms to a declared kind. -/
def matchesKind : Kind → Value → Bool
  | .kBool, .vBool _ => true
  | .kStr, .vStr _ => true
  | .kEnum cs, .vStr s => cs.contains s
  | .kRegexpList, .vList xs => allRegexps xs
  | .kRecordStrOrStrList, .vObj fs => allStrOrStrListFields fs
  | .kRecordStr, .vObj fs => allStrFields fs
  | .kCallback _, .vCallback _ => true
  | .kObj, .vObj _ => true
  | .kBoolOrObj, .vBool _ => true
  | .kBoolOrObj, .vObj _ => true
  | .kDevtool, .vStr _ => true
  | .kDevtool, .vBool b => !b
  | _, _ => false

/-- Mutability class of an option: static options are user-settable
freely; dynamic options are computed by the pipeline (the second
interface of build.d.ts) and only conditionally user-overridable. -/
inductive Mutability where
  | staticOpt
  | dynamicOpt
deriving Repr, DecidableEq

/-- Schema entry describing one configuration key: its name, value
kind, optional documented default and mutability class. -/
structure OptionDescriptor where
  name : String
  kind : Kind
  defaultVal : Option Value
  mutability : Mutability
deriving Repr, DecidableEq

/-- Options of interface QuasarStaticBuildConfiguration, one entry per
field, in declaration order (build.d.ts lines 8-153).  Defaults are the
documented default tags; the default of distDir is context-dependent in the
source (it depends on the mode) and so is recorded as absent. -/
def staticOptions : List OptionDescriptor :=
  [ ⟨"transpile", .kBool, some (.vBool true), .staticOpt⟩,
    ⟨"transpileDependencies", .kRegexpList, none, .staticOpt⟩,
    ⟨"transformAssetsUrls", .kRecordStrOrStrList, none, .staticOpt⟩,
    ⟨"showProgress", .kBool, none, .staticOpt⟩,
    ⟨"extendWebpack", .kCallback .webpackConfig, none, .staticOpt⟩,
    ⟨"chainWebpack", .kCallback .webpackChain, none, .staticOpt⟩,
    ⟨"beforeDev", .kCallback .hookParams, none, .staticOpt⟩,
    ⟨"afterDev", .kCallback .hookParams, none, .staticOpt⟩,
    ⟨"beforeBuild", .kCallback .hookParams, none, .staticOpt⟩,
    ⟨"afterBuild", .kCallback .hookParams, none, .staticOpt⟩,
    ⟨"onPublish", .kCallback (.objShape [("arg", .pStr), ("distDir", .pStr)]),
      none, .staticOpt⟩,
    ⟨"publicPath", .kStr, some (.vStr "/"), .staticOpt⟩,
    ⟨"vueRouterMode", .kEnum ["hash", "history"], some (.vStr "hash"), .staticOpt⟩,
    ⟨"htmlFilename", .kStr, some (.vStr "index.html"), .staticOpt⟩,
    ⟨"distDir", .kStr, none, .staticOpt⟩,
    ⟨"devtool", .kDevtool, none, .staticOpt⟩,
    ⟨"env", .kRecordStr, none, .staticOpt⟩,
    ⟨"gzip", .kBool, some (.vBool false), .staticOpt⟩,
    ⟨"scopeHoisting", .kBool, some (.vBool true), .staticOpt⟩,
    ⟨"analyze", .kBoolOrObj, none, .staticOpt⟩,
    ⟨"vueCompiler", .kBool, none, .staticOpt⟩,
    ⟨"uglifyOptions", .kObj, none, .staticOpt⟩,
    ⟨"preloadChunks", .kBool, some (.vBool true), .staticOpt⟩,
    ⟨"scssLoaderOptions", .kObj, none, .staticOpt⟩,
    ⟨"sassLoaderOptions", .kObj, none, .staticOpt⟩,
    ⟨"stylusLoaderOptions", .kObj, none, .staticOpt⟩,
    ⟨"lessLoaderOptions", .kObj, none, .staticOpt⟩ ]

/-- Options of interface QuasarDynamicBuildConfiguration, automatically
configured by the CLI, in declaration order (build.d.ts lines 160-173). -/
def dynamicOptions : List OptionDescriptor :=
  [ ⟨"extractCSS", .kBool, none, .dynamicOpt⟩,
    ⟨"sourceMap", .kBool, none, .dynamicOpt⟩,
    ⟨"minify", .kBool, none, .dynamicOpt⟩,
    ⟨"webpackManifest", .kBool, none, .dynamicOpt⟩ ]

/-- The whole schema: QuasarBuildConfiguration is the Partial of the
intersection of the static and the dynamic interface, so its option
set is the union of their fields (build.d.ts lines 175-179). -/
def schema : List OptionDescriptor := staticOptions ++ dynamicOptions

/-- Names of all options of the schema, in declaration order. -/
def schemaKeys : List String := schema.map OptionDescriptor.name

/-- Look an option up in the schema by name. -/
def describe (k : String) : Option OptionDescriptor :=
  schema.find? fun d => d.name == k

/-- Declared kind of an option, when the name is in the schema. -/
def kindOfOption (k : String) : Option Kind :=
  (describe k).map OptionDescriptor.kind

/-- Raw configuration object: a finite JavaScript object, embedded as
an association list of fields. -/
abbrev Obj : Type := List (String × Value)

/-- Field-level validation errors: unknown option name, value of the
wrong kind (with expected and actual kinds), and the optional strict
NotUserSettable error for dynamic options. -/
inductive FieldError where
  | unknownOption (key : String)
  | typeMismatch (key : String) (expected : Kind) (actual : ValueTag)
  | notUserSettable (key : String)
deriving Repr, DecidableEq

/-- Result of validation: the typed partial configuration, or the full
list of field errors. -/
inductive ValidationResult where
  | ok (conf : Obj)
  | invalid (errors : List FieldError)
deriving Repr, DecidableEq

/-- Modelled from the spec: the field-level checks of the Validator
(section 4.2), for one key of the raw object.  An unknown key yields
UnknownOption; a known key whose value does not match the declared
kind yields TypeMismatch with the expected and actual kinds.  Dynamic
options are permissively accepted (section 9: the source comment says
user override of dynamic options is intended, so NotUserSettable is
only an optional strict mode and is not emitted here). -/
def fieldErrors (k : String) (v : Value) : List FieldError :=
  match describe k with
  | none => [.unknownOption k]
  | some d => if matchesKind d.kind v then [] else [.typeMismatch k d.kind (tagOf v)]

/-- Modelled from the spec: the Validator (section 4.2), absent from
src/ which holds only the type declarations it would enforce.  Checks
every key of the raw object against the schema, collects the full list
of field errors rather than stopping at the first, and returns the
typed partial configuration when there are none. -/
def validate (raw : Obj) : ValidationResult :=
  let es := raw.flatMap fun kv => fieldErrors kv.1 kv.2
  if es.isEmpty then .ok raw else .invalid es

/-- Keys of an association-list object paired through a per-key
resolution function, keeping the keys with a resolved value. -/
def keyed (ks : List String) (f : String → Option Value) : Obj :=
  ks.filterMap fun k => (f k).map fun v => (k, v)

/-- Modelled from the spec: per-option resolution of the Merger
(section 4.3) with precedence, highest to lowest, dynamicOverrides
over validated user values over defaults. -/
def resolve (user dyn defs : Obj) (k : String) : Option Value :=
  (dyn.lookup k).orElse fun _ => (user.lookup k).orElse fun _ => defs.lookup k

/-- Modelled from the spec: the Merger (section 4.3), absent from src/.
Combines the validated user configuration, the pipeline-computed
dynamic overrides and the defaults into one Resolved Configuration
over the keys of the schema; keys outside the schema never pass through. -/
def merge (user dyn defs : Obj) : Obj :=
  keyed schemaKeys (resolve user dyn defs)

/-- Stated from the words of the specification for comparison with the
Merger: the defaults overridden field-by-field by the user values,
restricted to the keys of the schema. -/
def overrideBy (defs user : Obj) : Obj :=
  keyed schemaKeys fun k => (user.lookup k).orElse fun _ => defs.lookup k

/-- Membership predicate of the exported type QuasarBuildConfiguration,
translated from build.d.ts lines 175-179: the Partial of the
intersection of the static and dynamic interfaces.  An object inhabits
it exactly when each of its fields is a declared option carrying a
value of the declared kind; since the type is Partial, no field is
required. -/
def conformsQuasarBuildConfiguration (o : Obj) : Bool :=
  o.all fun kv =>
    match describe kv.1 with
    | some d => matchesKind d.kind kv.2
    | none => false

/-! ### Helper lemmas about association-list lookup and keyed objects -/

/-- Unfolding of lookup over a cons cell of an object. -/
theorem lookup_cons (k a : String) (v : Value) (l : Obj) :
    List.lookup k ((a, v) :: l) = if k = a then some v else List.lookup k l := by
  by_cases h : k = a
  · simp [List.lookup, h]
  · have hb : (k == a) = false := beq_eq_false_iff_ne.mpr h
    simp [List.lookup, hb, h]

/-- Looking a key up in an object keyed over distinct names yields the
resolution of the key when it is one of the names and nothing
otherwise. -/
theorem lookup_keyed (ks : List String) (f : String → Option Value) (k : String)
    (hnd : ks.Nodup) :
    List.lookup k (keyed ks f) = if k ∈ ks then f k else none := by
  induction ks with
  | nil => simp [keyed]
  | cons a ks ih =>
    obtain ⟨ha, hnd'⟩ := List.nodup_cons.mp hnd
    have ihh := ih hnd'
    simp only [keyed, List.filterMap_cons] at ihh ⊢
    cases hfa : f a with
    | none =>
      by_cases hk : k = a
      · subst hk
        simp [hfa, ihh, ha]
      · simp [hfa, ihh, hk, List.mem_cons]
    | some v =>
      by_cases hk : k = a
      · subst hk
        simp [hfa, lookup_cons, ihh, ha]
      · simp [hfa, lookup_cons, ihh, hk, List.mem_cons]

/-- Names of the schema are pairwise distinct. -/
theorem schemaKeys_nodup : schemaKeys.Nodup := by decide

/-- Looking a key up in a merged configuration resolves it with the
layered precedence when the key is in the schema and yields nothing
otherwise. -/
theorem lookup_merge (user dyn defs : Obj) (k : String) :
    List.lookup k (merge user dyn defs) =
      if k ∈ schemaKeys then resolve user dyn defs k else none :=
  lookup_keyed _ _ _ schemaKeys_nodup

/-- Keys the schema does not describe are not schema keys. -/
theorem not_mem_schemaKeys (k : String) (h : describe k = none) :
    k ∉ schemaKeys := by
  intro hk
  obtain ⟨d, hd, hdk⟩ := List.mem_map.mp hk
  exact (List.find?_eq_none.mp h d hd) (by simp [hdk])

/-- Keyed objects built from resolution functions that agree on the
keys are equal. -/
theorem keyed_congr (ks : List String) (f g : String → Option Value)
    (h : ∀ k ∈ ks, f k = g k) : keyed ks f = keyed ks g := by
  unfold keyed
  exact List.filterMap_congr fun k hk => by rw [h k hk]

/-! ### Claims -/

/-- C1: the merge operation resolves each schema option with precedence
dynamicOverrides over user values over defaults; in particular, when
the dynamic overrides set distDir to a value x, the resolved
configuration holds x at distDir whatever the user configuration says
(also when the user set distDir to another value). -/
theorem merge_precedence_dynamic_wins (user dyn defs : Obj) (x : String)
    (hdyn : dyn.lookup "distDir" = some (.vStr x)) :
    (merge user dyn defs).lookup "distDir" = some (.vStr x) ∧
    ∀ k ∈ schemaKeys, ∀ v, dyn.lookup k = some v →
      (merge user dyn defs).lookup k = some v := by
  constructor
  · rw [lookup_merge, if_pos (by decide : ("distDir" : String) ∈ schemaKeys)]
    simp [resolve, hdyn]
  · intro k hk v hv
    rw [lookup_merge, if_pos hk]
    simp [resolve, hv]

/-- Witness for C1 at the concrete configurations of the claim: the
user sets distDir to "Y", the dynamic overrides set it to "X", and the
resolved configuration holds "X". -/
theorem merge_precedence_dynamic_wins_witness :
    (merge [("distDir", .vStr "Y")] [("distDir", .vStr "X")] []).lookup "distDir"
      = some (.vStr "X") :=
  (merge_precedence_dynamic_wins [("distDir", .vStr "Y")] [("distDir", .vStr "X")]
    [] "X" (by decide)).1

/-- C2: for every option name k that is not in the schema and every
value v, validation of the object holding only k rejects it with an
UnknownOption error naming k; and no merged Resolved Configuration
ever holds a key outside the schema, so unknown keys are never
silently passed through. -/
theorem validate_unknown_option (k : String) (v : Value)
    (h : describe k = none) :
    validate [(k, v)] = .invalid [.unknownOption k] ∧
    ∀ user dyn defs : Obj, (merge user dyn defs).lookup k = none := by
  constructor
  · simp [validate, fieldErrors, h]
  · intro user dyn defs
    rw [lookup_merge, if_neg (not_mem_schemaKeys k h)]

/-- Witness for C2 at the concrete scenario of the specification:
validating an object holding only the key unknownKey with a number
value yields exactly the UnknownOption error for it. -/
theorem validate_unknown_option_witness :
    validate [("unknownKey", .vNum 1)] = .invalid [.unknownOption "unknownKey"] :=
  (validate_unknown_option "unknownKey" (.vNum 1) (by decide)).1

/-- C3: for every option k whose declared kind is boolean, validating
the string value "true" at k yields exactly a TypeMismatch error for k
with the expected kind boolean and the actual kind string, while
validating the boolean value true at k succeeds. -/
theorem validate_boolean_kind (k : String) (d : OptionDescriptor)
    (hk : describe k = some d) (hb : d.kind = .kBool) :
    validate [(k, .vStr "true")] = .invalid [.typeMismatch k .kBool .tStr] ∧
    validate [(k, .vBool true)] = .ok [(k, .vBool true)] := by
  constructor
  · simp [validate, fieldErrors, hk, hb, matchesKind, tagOf]
  · simp [validate, fieldErrors, hk, hb, matchesKind]

/-- Witness for C3 at the boolean option gzip: the string "true" is
rejected with a TypeMismatch error and the boolean true is accepted. -/
theorem validate_boolean_kind_witness :
    validate [("gzip", .vStr "true")] = .invalid [.typeMismatch "gzip" .kBool .tStr] ∧
    validate [("gzip", .vBool true)] = .ok [("gzip", .vBool true)] :=
  validate_boolean_kind "gzip" ⟨"gzip", .kBool, some (.vBool false), .staticOpt⟩
    (by decide) (by decide)

/-- C4: merging with no dynamic overrides equals the defaults
overridden field-by-field by the user values, and merging an
already-resolved configuration with itself (again with no overrides)
yields that same configuration, so the merge is idempotent. -/
theorem merge_defaults_override_idempotent :
    (∀ user defs : Obj, merge user [] defs = overrideBy defs user) ∧
    ∀ user dyn defs : Obj,
      merge (merge user dyn defs) [] (merge user dyn defs) = merge user dyn defs := by
  constructor
  · intro user defs
    rfl
  · intro user dyn defs
    show keyed schemaKeys (resolve (merge user dyn defs) [] (merge user dyn defs))
        = keyed schemaKeys (resolve user dyn defs)
    apply keyed_congr
    intro k hk
    have h0 : resolve (merge user dyn defs) [] (merge user dyn defs) k
        = Option.orElse (List.lookup k (merge user dyn defs))
            (fun _ => List.lookup k (merge user dyn defs)) := rfl
    have h1 : List.lookup k (merge user dyn defs) = resolve user dyn defs k := by
      rw [lookup_merge, if_pos hk]
    rw [h0, h1]
    cases resolve user dyn defs k <;> rfl

/-- C5: the Validator is total and never aborts at the first error:
whatever raw object it is given, every field-level error of any field
of the object is present in the returned error list (the model is a
pure function, so it cannot mutate its argument or throw). -/
theorem validate_total_collects_all_errors (raw : Obj) (k : String) (v : Value)
    (e : FieldError) (hmem : (k, v) ∈ raw) (he : e ∈ fieldErrors k v) :
    ∃ es, validate raw = .invalid es ∧ e ∈ es := by
  refine ⟨raw.flatMap fun kv => fieldErrors kv.1 kv.2, ?_,
    List.mem_flatMap.mpr ⟨(k, v), hmem, he⟩⟩
  have hmem2 : e ∈ raw.flatMap fun kv => fieldErrors kv.1 kv.2 :=
    List.mem_flatMap.mpr ⟨(k, v), hmem, he⟩
  have hne : (raw.flatMap fun kv => fieldErrors kv.1 kv.2) ≠ [] := by
    intro h0
    rw [h0] at hmem2
    exact (List.not_mem_nil e) hmem2
  simp [validate, List.isEmpty_iff, hne]

/-- Witness for C5 at a raw object whose second field is in error: the
TypeMismatch error of the second field is collected, so validation did
not stop at the UnknownOption error of the first field. -/
theorem validate_total_collects_all_errors_witness :
    ∃ es, validate [("foo", .vNum 1), ("gzip", .vStr "x")] = .invalid es ∧
      FieldError.typeMismatch "gzip" .kBool .tStr ∈ es :=
  validate_total_collects_all_errors [("foo", .vNum 1), ("gzip", .vStr "x")]
    "gzip" (.vStr "x") (.typeMismatch "gzip" .kBool .tStr) (by decide) (by decide)

/-- C6: the concrete scenario of the specification: validating the
object setting gzip to true succeeds with that object, and merging it
with dynamic overrides setting distDir to "dist/spa" over the defaults
yields the Resolved Configuration mapping gzip to true and distDir to
"dist/spa" (the association list is produced in schema declaration
order, so as an object it is exactly the claimed one, as the two
lookup equations state). -/
theorem validate_merge_concrete_scenario :
    validate [("gzip", .vBool true)] = .ok [("gzip", .vBool true)] ∧
    merge [("gzip", .vBool true)] [("distDir", .vStr "dist/spa")]
        [("gzip", .vBool false), ("distDir", .vStr "dist")]
      = [("distDir", .vStr "dist/spa"), ("gzip", .vBool true)] ∧
    (merge [("gzip", .vBool true)] [("distDir", .vStr "dist/spa")]
        [("gzip", .vBool false), ("distDir", .vStr "dist")]).lookup "gzip"
      = some (.vBool true) ∧
    (merge [("gzip", .vBool true)] [("distDir", .vStr "dist/spa")]
        [("gzip", .vBool false), ("distDir", .vStr "dist")]).lookup "distDir"
      = some (.vStr "dist/spa") :=
  ⟨by decide, by decide, by decide, by decide⟩

/-- C7: the Merger is deterministic: two runs on equal validated user
configurations, dynamic overrides and defaults produce structurally
identical Resolved Configurations (the model is a pure function, so no
input-output behaviour beyond the arguments can influence it). -/
theorem merge_deterministic (u1 d1 f1 u2 d2 f2 : Obj)
    (hu : u1 = u2) (hd : d1 = d2) (hf : f1 = f2) :
    merge u1 d1 f1 = merge u2 d2 f2 := by
  rw [hu, hd, hf]

/-- Witness for C7 at a concrete pair of equal runs. -/
theorem merge_deterministic_witness :
    merge [("gzip", .vBool true)] [] [] = merge [("gzip", .vBool true)] [] [] :=
  merge_deterministic _ _ _ _ _ _ rfl rfl rfl

/-- C8: the onPublish hook payload is exactly an object with a string
field arg and a string field distDir, while the beforeDev, afterDev,
beforeBuild and afterBuild hooks each receive the single
pipeline-defined hook-parameters object. -/
theorem hook_payload_shapes :
    kindOfOption "onPublish"
      = some (.kCallback (.objShape [("arg", .pStr), ("distDir", .pStr)])) ∧
    kindOfOption "beforeDev" = some (.kCallback .hookParams) ∧
    kindOfOption "afterDev" = some (.kCallback .hookParams) ∧
    kindOfOption "beforeBuild" = some (.kCallback .hookParams) ∧
    kindOfOption "afterBuild" = some (.kCallback .hookParams) :=
  ⟨by decide, by decide, by decide, by decide, by decide⟩

/-- C9: every option of the exported configuration type is optional:
the empty object conforms to it, its option set is exactly the static
options followed by the dynamic options (the Partial of the
intersection of the two interfaces), and dropping any fields from a
conforming object leaves it conforming, so no single option is ever
required of the user. -/
theorem build_configuration_all_optional :
    conformsQuasarBuildConfiguration [] = true ∧
    schemaKeys = staticOptions.map OptionDescriptor.name
        ++ dynamicOptions.map OptionDescriptor.name ∧
    ∀ o o' : Obj, o'.Sublist o → conformsQuasarBuildConfiguration o = true →
      conformsQuasarBuildConfiguration o' = true := by
  refine ⟨by decide, by simp [schemaKeys, schema], ?_⟩
  intro o o' hsub hall
  simp only [conformsQuasarBuildConfiguration, List.all_eq_true] at hall ⊢
  intro kv hkv
  exact hall kv (hsub.subset hkv)

/-- Witness for C9: the object setting only gzip conforms, obtained by
dropping the distDir field from a larger conforming object. -/
theorem build_configuration_all_optional_witness :
    conformsQuasarBuildConfiguration [("gzip", .vBool true)] = true :=
  build_configuration_all_optional.2.2
    [("gzip", .vBool true), ("distDir", .vStr "dist")]
    [("gzip", .vBool true)]
    (List.Sublist.cons₂ _ (List.nil_sublist _)) (by decide)

/-- C10: the analyze option is not of pure boolean kind: its declared
kind accepts a boolean or a bundle-analyzer options object, and the
Validator following the schema accepts any object value at analyze as
well as any boolean value. -/
theorem analyze_accepts_bool_or_object :
    kindOfOption "analyze" = some .kBoolOrObj ∧
    kindOfOption "analyze" ≠ some .kBool ∧
    (∀ fs : Fields, validate [("analyze", .vObj fs)] = .ok [("analyze", .vObj fs)]) ∧
    ∀ b : Bool, validate [("analyze", .vBool b)] = .ok [("analyze", .vBool b)] := by
  refine ⟨by decide, by decide, ?_, ?_⟩
  · intro fs
    have hd : describe "analyze" = some ⟨"analyze", .kBoolOrObj, none, .staticOpt⟩ := by
      decide
    simp [validate, fieldErrors, hd, matchesKind]
  · intro b
    have hd : describe "analyze" = some ⟨"analyze", .kBoolOrObj, none, .staticOpt⟩ := by
      decide
    simp [validate, fieldErrors, hd, matchesKind]

end QuasarConf
